import Mathlib

/-!
Verification development for the llm-context-gen repository.

The repository is a Streamlit orchestration app in two near-duplicate
variants (context-generator-app.py and context-generator-app-uploader.py)
plus a Gemini wrapper (gemini_interface.py).  The definitions below are a
shallow embedding of the file-system preparation steps, subprocess
invocations and branch logic of those files.  External effects (the
llama-parse tool, the files-to-prompt tool, the file system, the remote
generation endpoint) are modelled as explicit oracles supplied in an
environment record; the Python control flow is translated branch by
branch.
-/

namespace ContextGen

/-! ## PDF parsing step: parse_pdfs (context-generator-app.py lines 173-212,
context-generator-app-uploader.py lines 114-209; both variants have the same
observable behaviour). -/

/-- Outcome of one external llama-parse invocation on a single PDF.
`completed rc wrote` means subprocess.run returned with exit code `rc` and
the expected output file exists iff `wrote`; `timedOut wrote` models
subprocess.TimeoutExpired (the killed process may or may not have written
the file); `notFound` models FileNotFoundError raised by subprocess.run. -/
inductive ParseOutcome where
  | completed (returncode : Nat) (wrote : Bool)
  | timedOut (wrote : Bool)
  | notFound
deriving DecidableEq

/-- The per-file success test of parse_pdfs: exit code 0 AND the expected
output file exists (source: `res.returncode == 0 and out_fp.exists()`). -/
def isSuccess : ParseOutcome → Bool
  | .completed 0 true => true
  | _ => false

/-- Whether the invocation left the expected .md file in the output
directory. -/
def writesFile : ParseOutcome → Bool
  | .completed _ w => w
  | .timedOut w => w
  | .notFound => false

/-- Environment of one parse_pdfs call: results of the tool/auth checks,
whether the input directory exists, whether the output directory can be
removed and recreated, the stems of the immediate *.pdf files of the input
directory (sorted, as list_files returns them), the external outcome oracle,
and the files present in the output directory before the call (`none` means
the output directory does not exist). -/
structure ParseEnv where
  toolPresent : Bool
  authPresent : Bool
  inputDirExists : Bool
  outputDirPreparable : Bool
  pdfStems : List String
  outcome : String → ParseOutcome
  priorOutput : Option (List String)

/-- Observable result of parse_pdfs: the returned triple (success flag,
success count, failure count), plus the file-system state it leaves behind:
the contents of the output directory (`none` when absent), the list of PDFs
for which the parser was invoked, and whether the output directory was
cleared and recreated. -/
structure ParseResult where
  success : Bool
  ok : Nat
  fail : Nat
  outputFiles : Option (List String)
  invoked : List String
  prepared : Bool
deriving DecidableEq

/-- The per-file loop of parse_pdfs (source lines 190-206).  Accumulates the
success count, failure count, files written into the output directory and
the invocations made.  The Bool component is false iff the loop was aborted
by FileNotFoundError, which makes parse_pdfs return early. -/
def parseLoop (oc : String → ParseOutcome) :
    List String → Nat → Nat → List String → List String →
    Bool × Nat × Nat × List String × List String
  | [], ok, fl, files, inv => (true, ok, fl, files, inv)
  | s :: rest, ok, fl, files, inv =>
    match oc s with
    | .notFound => (false, ok, fl, files, inv)
    | .completed 0 true =>
        parseLoop oc rest (ok + 1) fl (files ++ [s ++ ".md"]) (inv ++ [s])
    | .completed 0 false =>
        parseLoop oc rest ok (fl + 1) files (inv ++ [s])
    | .completed (_ + 1) w =>
        parseLoop oc rest ok (fl + 1)
          (if w then files ++ [s ++ ".md"] else files) (inv ++ [s])
    | .timedOut w =>
        parseLoop oc rest ok (fl + 1)
          (if w then files ++ [s ++ ".md"] else files) (inv ++ [s])

/-- Model of parse_pdfs.  Mirrors the source order: tool check, auth check,
input-directory check, clear and recreate the output directory, enumerate
*.pdf files, loop, and compute the overall flag (failures > 0 gives False,
otherwise True; an early FileNotFoundError returns False with the counts so
far). -/
def parse_pdfs (e : ParseEnv) : ParseResult :=
  if e.toolPresent = false then
    ⟨false, 0, 0, e.priorOutput, [], false⟩
  else if e.authPresent = false then
    ⟨false, 0, 0, e.priorOutput, [], false⟩
  else if e.inputDirExists = false then
    ⟨false, 0, 0, e.priorOutput, [], false⟩
  else if e.outputDirPreparable = false then
    ⟨false, 0, 0, e.priorOutput, [], false⟩
  else
    match parseLoop e.outcome e.pdfStems 0 0 [] [] with
    | (completedAll, ok, fl, files, inv) =>
      ⟨if completedAll then decide (fl = 0) else false, ok, fl,
        some files, inv, true⟩

/-- Closed form of the parse loop when no invocation raises
FileNotFoundError: it processes every file, counting successes by the
success test, counting everything else as a failure, and leaving in the
output directory exactly the files the invocations wrote. -/
theorem parseLoop_spec (oc : String → ParseOutcome) (l : List String)
    (ok fl : Nat) (files inv : List String)
    (hnf : ∀ s ∈ l, oc s ≠ .notFound) :
    parseLoop oc l ok fl files inv =
      (true,
       ok + l.countP (fun s => isSuccess (oc s)),
       fl + l.countP (fun s => !isSuccess (oc s)),
       files ++ (l.filter (fun s => writesFile (oc s))).map
         (fun s => s ++ ".md"),
       inv ++ l) := by
  induction l generalizing ok fl files inv with
  | nil => simp [parseLoop]
  | cons s rest ih =>
    have hs : oc s ≠ .notFound := hnf s (List.mem_cons_self s rest)
    have hrest : ∀ x ∈ rest, oc x ≠ .notFound :=
      fun x hx => hnf x (List.mem_cons_of_mem s hx)
    cases hos : oc s with
    | notFound => exact absurd hos hs
    | completed rc w =>
      cases rc with
      | zero =>
        cases w with
        | true =>
          simp only [parseLoop, hos]
          rw [ih _ _ _ _ hrest]
          simp [List.countP_cons, isSuccess, writesFile, hos]
          try ring
        | false =>
          simp only [parseLoop, hos]
          rw [ih _ _ _ _ hrest]
          simp [List.countP_cons, isSuccess, writesFile, hos]
          try ring
      | succ n =>
        cases w with
        | true =>
          simp only [parseLoop, hos]
          rw [ih _ _ _ _ hrest]
          simp [List.countP_cons, isSuccess, writesFile, hos]
          try ring
        | false =>
          simp only [parseLoop, hos]
          rw [ih _ _ _ _ hrest]
          simp [List.countP_cons, isSuccess, writesFile, hos]
          try ring
    | timedOut w =>
      cases w with
      | true =>
        simp only [parseLoop, hos]
        rw [ih _ _ _ _ hrest]
        simp [List.countP_cons, isSuccess, writesFile, hos]
        try ring
      | false =>
        simp only [parseLoop, hos]
        rw [ih _ _ _ _ hrest]
        simp [List.countP_cons, isSuccess, writesFile, hos]
        try ring

/-! ## Combination step: combine_files_via_cli (context-generator-app.py
lines 214-248, context-generator-app-uploader.py lines 212-278). -/

/-- Name of the external concatenation tool. -/
def FILES_TO_PROMPT_COMMAND : String := "files-to-prompt"

/-- The single-quote character, written by code point to keep it out of
string literals. -/
def singleQuoteChar : Char := Char.ofNat 39

/-- The double-quote character. -/
def doubleQuoteChar : Char := Char.ofNat 34

/-- Character class that the Python shlex quoting function treats as safe:
ASCII word characters (letters, digits, underscore) plus the punctuation of
its unsafe-character regex. -/
def isShlexSafe (c : Char) : Bool :=
  (c.isAlpha && c.toNat < 128) || c.isDigit || c = '_' || c = '@' ||
    c = '%' || c = '+' || c = '=' || c = ':' || c = ',' || c = '.' ||
    c = '/' || c = '-'

/-- Escape of one character inside a shlex-quoted string: a single quote
becomes quote, double quote, quote, double quote, quote; everything else is
kept. -/
def shlexEscapeChar (c : Char) : List Char :=
  if c = singleQuoteChar then
    [singleQuoteChar, doubleQuoteChar, singleQuoteChar, doubleQuoteChar,
      singleQuoteChar]
  else [c]

/-- Model of Python shlex.quote: the empty string becomes two single
quotes, a string of safe characters is returned unchanged, and anything
else is wrapped in single quotes with embedded single quotes escaped. -/
def shlexQuote (s : String) : String :=
  if s.data = [] then String.mk [singleQuoteChar, singleQuoteChar]
  else if s.data.all isShlexSafe then s
  else
    String.mk ([singleQuoteChar] ++ (s.data.map shlexEscapeChar).flatten ++
      [singleQuoteChar])

/-- The argument vector handed to subprocess.run by combine_files_via_cli
(source: `cmd=[FILES_TO_PROMPT_COMMAND] + [shlex.quote(d) for d in
valid_dirs_resolved] + ["--cxml", "-o", quoted_out_fp]`). -/
def buildF2PCommand (validDirsResolved : List String) (outFpResolved : String) :
    List String :=
  [FILES_TO_PROMPT_COMMAND] ++ validDirsResolved.map shlexQuote ++
    ["--cxml", "-o", shlexQuote outFpResolved]

/-- Outcome of the single files-to-prompt invocation. -/
inductive CombineRun where
  | completed (returncode : Nat)
  | timedOut
  | notFound
  | raised
deriving DecidableEq

/-- Environment of one combine_files_via_cli call: the tool check, the
file-system oracle for the is_dir tests, the path-resolution oracle,
whether the parent directory of the output file can be created, the run
outcome, whether the output file exists afterwards, and the content read
back (`none` models an IOError on reading). -/
structure CombineEnv where
  toolPresent : Bool
  isDir : String → Bool
  resolve : String → String
  outDirPreparable : Bool
  run : CombineRun
  outFileExists : Bool
  readBack : Option String

/-- Observable result of combine_files_via_cli: the returned pair, the
directory arguments of the tool invocation when one happened, and the full
argument vector of that invocation. -/
structure CombineResult where
  success : Bool
  content : Option String
  invokedDirs : Option (List String)
  cmd : Option (List String)
deriving DecidableEq

/-- The part of combine_files_via_cli from the subprocess.run call on: on
exit code 0 with an existing output file, read the file back (a read error
is a failure); every other outcome is a failure. -/
def combineRunResult (e : CombineEnv) (validDirs cmd : List String) :
    CombineResult :=
  match e.run with
  | .completed 0 =>
    if e.outFileExists then
      match e.readBack with
      | some content => ⟨true, some content, some validDirs, some cmd⟩
      | none => ⟨false, none, some validDirs, some cmd⟩
    else ⟨false, none, some validDirs, some cmd⟩
  | _ => ⟨false, none, some validDirs, some cmd⟩

/-- Model of combine_files_via_cli.  Mirrors the source order: tool check,
empty-request check, filter the candidates by is_dir and resolve the
survivors, fail when none survive, create the output parent directory,
build the command, run it, and on exit code 0 with an existing output file
read the file back. -/
def combine_files_via_cli (e : CombineEnv) (dirsToScan : List String)
    (outputFp : String) : CombineResult :=
  if e.toolPresent = false then ⟨false, none, none, none⟩
  else if dirsToScan = [] then ⟨false, none, none, none⟩
  else
    let validDirs := (dirsToScan.filter e.isDir).map e.resolve
    if validDirs = [] then ⟨false, none, none, none⟩
    else if e.outDirPreparable = false then ⟨false, none, none, none⟩
    else
      combineRunResult e validDirs
        (buildF2PCommand validDirs (e.resolve outputFp))

/-! ## Tab 1 workflow: source-selection decision logic
(context-generator-app.py lines 330-366,
context-generator-app-uploader.py lines 368-464). -/

/-- The fixed name of the parsed-PDF output subdirectory. -/
def DEFAULT_PARSED_PDF_OUTPUT_SUBDIR : String := "parsed_pdfs_streamlit"

/-- Model of os.path.join for a base directory and a relative component. -/
def pathJoin (a b : String) : String := a ++ "/" ++ b

/-- Boolean prefix test on strings, used to model the
Path.relative_to success test. -/
def strIsPrefixOf (a b : String) : Bool := List.isPrefixOf a.data b.data

/-- Model of the relative_to test of the uploader variant: the parsed
directory is a subpath of the TXT directory (equal, or extends it past a
path separator). -/
def isPathParent (base child : String) : Bool :=
  decide (base = child) || strIsPrefixOf (base ++ "/") child

/-- Model of clear_directory (context-generator-app.py lines 114-123): if
the directory exists it is removed and recreated empty, otherwise it is
created empty; an OSError leaves the previous state and reports failure. -/
def clear_directory (prior : Option (List String)) (osOk : Bool) :
    Bool × Option (List String) :=
  match prior with
  | some contents => if osOk then (true, some []) else (false, some contents)
  | none => if osOk then (true, some []) else (false, none)

/-- The three-way source option of tab 1. -/
inductive ProcOpt where
  | txtOnly
  | pdfOnly
  | both
deriving DecidableEq

/-- State feeding the Generate Context File handler of
context-generator-app.py: the TXT input directory string, whether it is a
directory, whether the rmtree/mkdir pair of clear_directory succeeds, and
the environment of the parse step (whose priorOutput doubles as the state
of the parsed-PDF subdirectory before the run). -/
structure AppState where
  txt_d : String
  txtDirIsDir : Bool
  clearOsOk : Bool
  parseEnv : ParseEnv

/-- Observable outcome of the handler up to the combination call: the
directory list handed to combine_files_via_cli when Step 3 is reached, and
the contents of the parsed-PDF subdirectory at that moment. -/
structure AppRunOutcome where
  combineDirs : Option (List String)
  parsedContents : Option (List String)
deriving DecidableEq

/-- Model of the Generate Context File handler of context-generator-app.py
(lines 338-366).  Step 1 parses PDFs for the PDF-only and Both options;
Step 2 picks the target directory: Both targets the TXT directory when it
is a directory, PDF-only targets the parsed subdirectory when at least one
PDF parsed and the subdirectory exists, TXT-only clears the parsed
subdirectory first and then targets the TXT directory; Step 3 combines the
single target directory. -/
def app_generate (s : AppState) (opt : ProcOpt) : AppRunOutcome :=
  let parsed_d := pathJoin s.txt_d DEFAULT_PARSED_PDF_OUTPUT_SUBDIR
  match opt with
  | .both =>
      let pr := parse_pdfs s.parseEnv
      if s.txtDirIsDir then ⟨some [s.txt_d], pr.outputFiles⟩
      else ⟨none, pr.outputFiles⟩
  | .pdfOnly =>
      let pr := parse_pdfs s.parseEnv
      if pr.success = false then ⟨none, pr.outputFiles⟩
      else if pr.ok = 0 then ⟨none, pr.outputFiles⟩
      else if pr.outputFiles.isSome then ⟨some [parsed_d], pr.outputFiles⟩
      else ⟨none, pr.outputFiles⟩
  | .txtOnly =>
      if s.txtDirIsDir then
        let c := clear_directory s.parseEnv.priorOutput s.clearOsOk
        if c.1 then ⟨some [s.txt_d], c.2⟩ else ⟨none, c.2⟩
      else ⟨none, s.parseEnv.priorOutput⟩

/-- State feeding the Generate Context File handler of
context-generator-app-uploader.py: the TXT input directory string, whether
it is a directory, whether the PDF input directory currently matches any
*.pdf in the re-check glob, and the parse-step environment. -/
structure UpState where
  txt_d : String
  txtDirIsDir : Bool
  inputHasPdfGlob : Bool
  parseEnv : ParseEnv

/-- Model of the Generate Context File handler of
context-generator-app-uploader.py (lines 386-464).  Step 1 parses PDFs for
the PDF-only and Both options and, on success with at least one parsed
file, adds the parsed subdirectory to the scan list; Step 2 adds the TXT
directory only when it is not already listed and is not a parent of the
parsed subdirectory; the combination runs only when the list is nonempty.
Returns the directory list handed to combine_files_via_cli, or `none` when
the combination step is not reached. -/
def uploader_generate (s : UpState) (opt : ProcOpt) : Option (List String) :=
  let parsed_d := pathJoin s.txt_d DEFAULT_PARSED_PDF_OUTPUT_SUBDIR
  let step1 : List String × Bool :=
    if opt = .pdfOnly ∨ opt = .both then
      let pr := parse_pdfs s.parseEnv
      if pr.success = false then ([], false)
      else if pr.ok = 0 ∧ pr.fail = 0 then
        ([], if s.inputHasPdfGlob ∧ opt = .pdfOnly then false else true)
      else if 0 < pr.ok then
        if pr.outputFiles.isSome then ([parsed_d], true)
        else ([], if opt = .pdfOnly then false else true)
      else ([], true)
    else ([], true)
  if step1.2 = true ∨ opt = .txtOnly then
    let step2 : List String × Bool :=
      if opt = .txtOnly ∨ opt = .both then
        if s.txtDirIsDir = false then
          (step1.1, if opt = .txtOnly then false else true)
        else if s.txt_d ∉ step1.1 ∧ isPathParent s.txt_d parsed_d = false then
          (step1.1 ++ [s.txt_d], true)
        else (step1.1, true)
      else (step1.1, true)
    if step2.2 = false then none
    else if step2.1 = [] then none
    else some step2.1
  else none

/-- A list is always a prefix of itself extended on the right. -/
theorem isPrefixOf_append_self (p q : List Char) :
    List.isPrefixOf p (p ++ q) = true := by
  induction p with
  | nil => simp [List.isPrefixOf]
  | cons c cs ih => simp [List.isPrefixOf, ih]

/-- The parsed-PDF subdirectory is always a subpath of the TXT directory it
is joined under, so the relative_to test of the uploader variant always
succeeds. -/
theorem isPathParent_pathJoin (t sub : String) :
    isPathParent t (pathJoin t sub) = true := by
  have h : strIsPrefixOf (t ++ "/") (pathJoin t sub) = true := by
    have hd : (pathJoin t sub).data = (t ++ "/").data ++ sub.data := by
      simp [pathJoin]
    simp [strIsPrefixOf, hd, isPrefixOf_append_self]
  simp [isPathParent, h]

/-! ## String helpers used by the Gemini wrapper model. -/

/-- Substring test on character lists: the needle occurs somewhere in the
haystack (the empty needle always occurs). -/
def listContainsSub : List Char → List Char → Bool
  | _, [] => true
  | [], _ :: _ => false
  | c :: rest, d :: n =>
      List.isPrefixOf (d :: n) (c :: rest) || listContainsSub rest (d :: n)

/-- Model of the Python `in` test on strings. -/
def strContains (hay needle : String) : Bool :=
  listContainsSub hay.data needle.data

/-- Model of Python str.strip with no argument: drop leading and trailing
whitespace. -/
def pyStrip (s : String) : String :=
  String.mk
    (((s.data.dropWhile Char.isWhitespace).reverse.dropWhile
      Char.isWhitespace).reverse)

/-- Model of Python str.lower. -/
def pyLower (s : String) : String := String.mk (s.data.map Char.toLower)

/-- The opening curly brace, written by code point. -/
def lbraceChar : Char := Char.ofNat 123

/-- The closing curly brace, written by code point. -/
def rbraceChar : Char := Char.ofNat 125

/-- The placeholder the meta-prompt template must contain. -/
def placeholderStr : String := "\x7bcontext_snippet\x7d"

/-- The field name of the placeholder. -/
def placeholderField : List Char := "context_snippet".data

/-- Read a replacement-field name up to the closing brace; fails on a
nested opening brace or a missing closing brace.  Returns the field and the
remaining input. -/
def takeFormatField : List Char → Option (List Char × List Char)
  | [] => none
  | c :: rest =>
    if c = rbraceChar then some ([], rest)
    else if c = lbraceChar then none
    else
      match takeFormatField rest with
      | some (f, r) => some (c :: f, r)
      | none => none

/-- Reading a field consumes at least the closing brace. -/
theorem takeFormatField_length (l : List Char) :
    ∀ f r, takeFormatField l = some (f, r) → r.length < l.length := by
  induction l with
  | nil => intro f r h; simp [takeFormatField] at h
  | cons c rest ih =>
    intro f r h
    rw [takeFormatField] at h
    by_cases hc : c = rbraceChar
    · rw [if_pos hc] at h
      simp only [Option.some.injEq, Prod.mk.injEq] at h
      obtain ⟨h3, h4⟩ := h
      subst h4
      simp
    · rw [if_neg hc] at h
      by_cases hl : c = lbraceChar
      · rw [if_pos hl] at h; exact absurd h (by simp)
      · rw [if_neg hl] at h
        cases htf : takeFormatField rest with
        | none => rw [htf] at h; simp at h
        | some pr =>
          obtain ⟨f0, r0⟩ := pr
          rw [htf] at h
          simp only [Option.some.injEq, Prod.mk.injEq] at h
          obtain ⟨h3, h4⟩ := h
          subst h4
          have := ih f0 r0 htf
          simp
          omega

/-- Model of Python str.format with the single keyword argument
context_snippet: doubled braces are literals, the placeholder field is
replaced by the snippet, any other field or an unmatched brace raises
(returns `none`). -/
def pyFormatCore (snippet : List Char) : List Char → Option (List Char)
  | [] => some []
  | c :: rest =>
    if c = lbraceChar then
      match rest with
      | [] => none
      | d :: rest2 =>
        if d = lbraceChar then
          match pyFormatCore snippet rest2 with
          | some out => some (lbraceChar :: out)
          | none => none
        else
          match h : takeFormatField (d :: rest2) with
          | some (f, r) =>
            if f = placeholderField then
              match pyFormatCore snippet r with
              | some out => some (snippet ++ out)
              | none => none
            else none
          | none => none
    else if c = rbraceChar then
      match rest with
      | [] => none
      | d :: rest2 =>
        if d = rbraceChar then
          match pyFormatCore snippet rest2 with
          | some out => some (rbraceChar :: out)
          | none => none
        else none
    else
      match pyFormatCore snippet rest with
      | some out => some (c :: out)
      | none => none
termination_by l => l.length
decreasing_by
  all_goals simp_wf
  all_goals try omega
  · have := takeFormatField_length _ _ _ h
    simp only [List.length_cons] at this ⊢
    omega

/-- Model of the template.format call of the source. -/
def pyFormat (template snippet : String) : Option String :=
  (pyFormatCore snippet.data template.data).map String.mk

/-! ## Persona-suggestion step: generate_expert_system_prompt
(context-generator-app.py lines 126-170). -/

/-- The distinct error-return sites of generate_expert_system_prompt, one
constructor per `return None, ...` statement of the source. -/
inductive GenErr where
  | configMissingKey
  | inputEmpty
  | templateInvalid
  | apiConfigError (msg : String)
  | formatError
  | blockedSafety (reason : String)
  | emptyResponse
  | unexpectedResponse
  | invalidApiKey
  | quotaExceeded
  | modelUnavailable
  | apiOther (msg : String)
deriving DecidableEq

/-- The exception classifier of the source (lines 164-170): lowercase the
message and test it for the key, quota and model substrings, in that
order. -/
def classifyApiError (msg : String) : GenErr :=
  let e := pyLower msg
  if strContains e "api key not valid" then .invalidApiKey
  else if strContains e "quota" then .quotaExceeded
  else if strContains e "model" &&
      (strContains e "not found" || strContains e "permission") then
    .modelUnavailable
  else .apiOther msg

/-- Outcome of the single generate_content call: a response carrying a text
attribute (with its prompt-feedback block reason), a response without a
text attribute, or a raised exception with its message. -/
inductive ApiOutcome where
  | hasText (t : String) (blockReason : Option String)
  | noText (blockReason : Option String)
  | raised (msg : String)
deriving DecidableEq

/-- Environment of one generate_expert_system_prompt call: the value of the
GEMINI_API_KEY environment variable (empty models both unset and empty),
whether genai.configure raises (and with what message), and the outcome of
the remote call. -/
structure GeminiEnv where
  apiKey : String
  configureFails : Option String
  apiOutcome : ApiOutcome

/-- Observable result: the returned pair of Optionals modelled as text and
error channels, plus whether the remote endpoint was called at all. -/
structure GenResult where
  text : Option String
  error : Option GenErr
  remoteCalled : Bool
deriving DecidableEq

/-- Model of generate_expert_system_prompt.  Mirrors the source order: key
check, empty-context check, placeholder check, genai.configure, meta-prompt
formatting, the remote call, and the response/exception handling. -/
def generate_expert_system_prompt (env : GeminiEnv)
    (fullContext metaPromptTemplate : String) : GenResult :=
  if env.apiKey = "" then ⟨none, some .configMissingKey, false⟩
  else if pyStrip fullContext = "" then ⟨none, some .inputEmpty, false⟩
  else if strContains metaPromptTemplate placeholderStr = false then
    ⟨none, some .templateInvalid, false⟩
  else
    match env.configureFails with
    | some m => ⟨none, some (.apiConfigError m), false⟩
    | none =>
      let snippet := pyStrip fullContext
      match pyFormat metaPromptTemplate snippet with
      | none => ⟨none, some .formatError, false⟩
      | some _finalPrompt =>
        match env.apiOutcome with
        | .hasText t br =>
          let genPrompt := pyStrip t
          if genPrompt = "" then
            match br with
            | some reason => ⟨none, some (.blockedSafety reason), true⟩
            | none => ⟨none, some .emptyResponse, true⟩
          else ⟨some genPrompt, none, true⟩
        | .noText br =>
          match br with
          | some reason => ⟨none, some (.blockedSafety reason), true⟩
          | none => ⟨none, some .unexpectedResponse, true⟩
        | .raised m => ⟨none, some (classifyApiError m), true⟩

/-- The error classes the source can produce from the remote call itself
(everything after generate_content is entered): safety block, invalid key,
quota, model unavailable, empty response, unexpected response, or the
catch-all API error. -/
def isRemoteErrClass : GenErr → Bool
  | .blockedSafety _ => true
  | .invalidApiKey => true
  | .quotaExceeded => true
  | .modelUnavailable => true
  | .emptyResponse => true
  | .unexpectedResponse => true
  | .apiOther _ => true
  | _ => false

/-! ## File deletion: delete_file (context-generator-app.py lines 104-112,
context-generator-app-uploader.py lines 93-111). -/

/-- Minimal file-system state: the set of regular files and the set of
directories, each as a list of paths. -/
structure FS where
  files : List String
  dirs : List String
deriving DecidableEq

/-- Model of Path.is_file. -/
def FS.isFile (fs : FS) (p : String) : Bool := fs.files.contains p

/-- The three observable outcomes of delete_file. -/
inductive DeleteOutcome where
  | warnedEmptyPath
  | deleted (filename : String)
  | warnedNotFound
deriving DecidableEq

/-- Model of Path.name: the part of the path after the last separator. -/
def baseName (p : String) : String :=
  String.mk ((p.data.reverse.takeWhile (fun c => c ≠ '/')).reverse)

/-- Model of delete_file: an empty path only warns, an existing regular
file is unlinked (and its name reported), anything else only warns. -/
def delete_file (fs : FS) (filepathStr : String) : FS × DeleteOutcome :=
  if filepathStr = "" then (fs, .warnedEmptyPath)
  else if fs.isFile filepathStr then
    (⟨fs.files.erase filepathStr, fs.dirs⟩, .deleted (baseName filepathStr))
  else (fs, .warnedNotFound)

/-! ## Theorems about the parse step. -/

/-- A per-file success implies the output file was written. -/
theorem isSuccess_writes (o : ParseOutcome) :
    isSuccess o = true → writesFile o = true := by
  cases o with
  | completed rc w => cases rc <;> cases w <;> simp [isSuccess, writesFile]
  | timedOut w => simp [isSuccess]
  | notFound => simp [isSuccess]

/-- Closed form of parse_pdfs when the tool and auth checks pass, the input
directory exists, the output directory is preparable and no invocation
raises FileNotFoundError. -/
theorem parse_pdfs_run (e : ParseEnv)
    (h1 : e.toolPresent = true) (h2 : e.authPresent = true)
    (h3 : e.inputDirExists = true) (h4 : e.outputDirPreparable = true)
    (hnf : ∀ s ∈ e.pdfStems, e.outcome s ≠ .notFound) :
    parse_pdfs e =
      ⟨decide (e.pdfStems.countP (fun s => !isSuccess (e.outcome s)) = 0),
       e.pdfStems.countP (fun s => isSuccess (e.outcome s)),
       e.pdfStems.countP (fun s => !isSuccess (e.outcome s)),
       some ((e.pdfStems.filter (fun s => writesFile (e.outcome s))).map
         (fun s => s ++ ".md")),
       e.pdfStems, true⟩ := by
  rw [parse_pdfs, parseLoop_spec e.outcome e.pdfStems 0 0 [] [] hnf]
  simp [h1, h2, h3, h4]

/-- C3: with the parser tool present and authenticated, the input directory
existing and the output directory preparable, and assuming the external
parser writes the expected .md file only when it also exits with code 0
(and never raises FileNotFoundError), the output directory afterwards
contains exactly one stem.md file per successfully parsed input PDF and
nothing else; in particular it was cleared first, so no file present before
the run survives regardless of the prior contents. -/
theorem parse_run_output_exactly_successes (e : ParseEnv)
    (h1 : e.toolPresent = true) (h2 : e.authPresent = true)
    (h3 : e.inputDirExists = true) (h4 : e.outputDirPreparable = true)
    (hnf : ∀ s ∈ e.pdfStems, e.outcome s ≠ .notFound)
    (hw : ∀ s ∈ e.pdfStems,
      writesFile (e.outcome s) = true → isSuccess (e.outcome s) = true) :
    (parse_pdfs e).outputFiles =
        some ((e.pdfStems.filter (fun s => isSuccess (e.outcome s))).map
          (fun s => s ++ ".md")) ∧
      (parse_pdfs e).prepared = true := by
  rw [parse_pdfs_run e h1 h2 h3 h4 hnf]
  have hpt : ∀ s ∈ e.pdfStems,
      writesFile (e.outcome s) = isSuccess (e.outcome s) := by
    intro s hsm
    have ha := hw s hsm
    have hb := isSuccess_writes (e.outcome s)
    cases hws : writesFile (e.outcome s) <;>
      cases hsc : isSuccess (e.outcome s) <;> simp_all
  rw [List.filter_congr hpt]
  exact ⟨rfl, rfl⟩

/-- The two-PDF scenario of the specification: a.pdf parses successfully,
b.pdf exits with code 1 and writes nothing. -/
def scenarioOutcome : String → ParseOutcome := fun s =>
  if s = "a" then .completed 0 true else .completed 1 false

/-- Parse environment of the scenario, with a stale file in the output
directory from a previous run. -/
def scenarioEnv : ParseEnv :=
  ⟨true, true, true, true, ["a", "b"], scenarioOutcome, some ["stale.md"]⟩

/-- Witness for C3 at the concrete scenario: the stale file is gone and
only a.md remains. -/
theorem parse_run_output_exactly_successes_witness :
    (parse_pdfs scenarioEnv).outputFiles = some ["a.md"] ∧
      (parse_pdfs scenarioEnv).prepared = true := by
  have h := parse_run_output_exactly_successes scenarioEnv rfl rfl rfl rfl
    (by decide) (by decide)
  refine ⟨?_, h.2⟩
  rw [h.1]
  decide

/-- C4: under the same preconditions, the success count is exactly the
number of input PDFs whose invocation exited with code 0 and produced the
expected .md file, the failure count is the number of all other inputs (the
loop continues past each failure), and the returned flag is true iff the
failure count is zero. -/
theorem parse_per_file_success_criterion (e : ParseEnv)
    (h1 : e.toolPresent = true) (h2 : e.authPresent = true)
    (h3 : e.inputDirExists = true) (h4 : e.outputDirPreparable = true)
    (hnf : ∀ s ∈ e.pdfStems, e.outcome s ≠ .notFound) :
    (parse_pdfs e).ok =
        e.pdfStems.countP (fun s => isSuccess (e.outcome s)) ∧
      (parse_pdfs e).fail =
        e.pdfStems.countP (fun s => !isSuccess (e.outcome s)) ∧
      ((parse_pdfs e).success = true ↔ (parse_pdfs e).fail = 0) := by
  rw [parse_pdfs_run e h1 h2 h3 h4 hnf]
  simp

/-- Witness for C4 at the concrete scenario: success=false, ok=1, fail=1,
with a.md present and no b.md. -/
theorem parse_per_file_success_criterion_witness :
    (parse_pdfs scenarioEnv).success = false ∧
      (parse_pdfs scenarioEnv).ok = 1 ∧
      (parse_pdfs scenarioEnv).fail = 1 ∧
      (parse_pdfs scenarioEnv).outputFiles = some ["a.md"] := by
  have h := parse_per_file_success_criterion scenarioEnv rfl rfl rfl rfl
    (by decide)
  have hf : (parse_pdfs scenarioEnv).fail = 1 := by rw [h.2.1]; decide
  refine ⟨?_, ?_, hf, ?_⟩
  · cases hs : (parse_pdfs scenarioEnv).success with
    | false => rfl
    | true =>
      have h0 := h.2.2.mp hs
      rw [hf] at h0
      exact absurd h0 (by decide)
  · rw [h.1]; decide
  · decide

/-- C7: with the tool present and authenticated but the input directory
missing, parse_pdfs returns success=false with zero counts, leaves the
output directory untouched and invokes the parser on nothing. -/
theorem parse_missing_input_dir_returns_false_zero (e : ParseEnv)
    (h1 : e.toolPresent = true) (h2 : e.authPresent = true)
    (h3 : e.inputDirExists = false) :
    parse_pdfs e = ⟨false, 0, 0, e.priorOutput, [], false⟩ := by
  simp [parse_pdfs, h1, h2, h3]

/-- Environment with a missing input directory and a leftover output
file. -/
def missingInputEnv : ParseEnv :=
  ⟨true, true, false, true, ["a"], scenarioOutcome, some ["old.md"]⟩

/-- Witness for C7 at a concrete environment. -/
theorem parse_missing_input_dir_returns_false_zero_witness :
    parse_pdfs missingInputEnv =
      ⟨false, 0, 0, some ["old.md"], [], false⟩ :=
  parse_missing_input_dir_returns_false_zero missingInputEnv rfl rfl rfl

/-- C8: with all preconditions met and no *.pdf file in the input
directory, parse_pdfs returns success=true with zero successes and zero
failures (and an emptied output directory). -/
theorem parse_empty_input_success_zero (e : ParseEnv)
    (h1 : e.toolPresent = true) (h2 : e.authPresent = true)
    (h3 : e.inputDirExists = true) (h4 : e.outputDirPreparable = true)
    (h5 : e.pdfStems = []) :
    parse_pdfs e = ⟨true, 0, 0, some [], [], true⟩ := by
  simp [parse_pdfs, h1, h2, h3, h4, h5, parseLoop]

/-- Environment with an existing but PDF-free input directory. -/
def emptyInputEnv : ParseEnv :=
  ⟨true, true, true, true, [], scenarioOutcome, some ["x.md"]⟩

/-- Witness for C8 at a concrete environment. -/
theorem parse_empty_input_success_zero_witness :
    parse_pdfs emptyInputEnv = ⟨true, 0, 0, some [], [], true⟩ :=
  parse_empty_input_success_zero emptyInputEnv rfl rfl rfl rfl rfl

/-! ## Theorems about the combination step and the tab 1 decision logic. -/

/-- Whatever the run outcome, an invocation records its directory list. -/
theorem combineRunResult_invoked (e : CombineEnv) (v c : List String) :
    (combineRunResult e v c).invokedDirs = some v := by
  cases hr : e.run with
  | completed rc =>
    cases rc with
    | zero =>
      by_cases hf : e.outFileExists = true
      · cases hrb : e.readBack <;> simp [combineRunResult, hr, hf, hrb]
      · simp [combineRunResult, hr, hf]
    | succ n => simp [combineRunResult, hr]
  | timedOut => simp [combineRunResult, hr]
  | notFound => simp [combineRunResult, hr]
  | raised => simp [combineRunResult, hr]

/-- C6: with the concatenation tool present and the output directory
preparable, the combination step invokes the tool exactly on the candidates
that exist as directories at call time (resolved), still invoking it when
some candidates were dropped; and when no candidate is valid it fails
without invoking the tool. -/
theorem combine_filters_to_existing_dirs (e : CombineEnv)
    (dirs : List String) (out : String)
    (h1 : e.toolPresent = true) (h2 : e.outDirPreparable = true) :
    (dirs.filter e.isDir ≠ [] →
      (combine_files_via_cli e dirs out).invokedDirs =
        some ((dirs.filter e.isDir).map e.resolve)) ∧
    (dirs.filter e.isDir = [] →
      (combine_files_via_cli e dirs out).invokedDirs = none ∧
        (combine_files_via_cli e dirs out).success = false) := by
  constructor
  · intro hne
    have hd : dirs ≠ [] := by
      intro hd0
      rw [hd0] at hne
      simp at hne
    have hv : (dirs.filter e.isDir).map e.resolve ≠ [] := by
      simp only [ne_eq, List.map_eq_nil_iff]
      exact hne
    rw [combine_files_via_cli]
    simp [h1, h2, hd, hv, combineRunResult_invoked]
  · intro h0
    by_cases hd : dirs = []
    · rw [combine_files_via_cli, hd]
      simp [h1]
    · rw [combine_files_via_cli]
      simp [h1, hd, h0]

/-- Concrete combine environment: only the directory /ok exists, resolution
is the identity, and the tool run succeeds. -/
def combineWitnessEnv : CombineEnv :=
  ⟨true, fun d => decide (d = "/ok"), fun d => d, true,
    .completed 0, true, some "content"⟩

/-- Witness for C6: the missing candidate is dropped but the tool is still
invoked on the surviving one; an all-invalid request never invokes. -/
theorem combine_filters_to_existing_dirs_witness :
    (combine_files_via_cli combineWitnessEnv ["/missing", "/ok"]
      "/out.txt").invokedDirs = some ["/ok"] ∧
    (combine_files_via_cli combineWitnessEnv ["/missing"]
      "/out.txt").invokedDirs = none := by
  constructor
  · have h := (combine_filters_to_existing_dirs combineWitnessEnv
      ["/missing", "/ok"] "/out.txt" rfl rfl).1 (by decide)
    rw [h]
    decide
  · exact ((combine_filters_to_existing_dirs combineWitnessEnv
      ["/missing"] "/out.txt" rfl rfl).2 (by decide)).1

/-- C5 (refuting the as-is claim): the argument vector applies shlex
quoting to every directory and to the output path, so a path containing a
space is wrapped in literal single quotes instead of being passed
unchanged; only paths made of shlex-safe characters pass through
unchanged. -/
theorem combine_argv_shell_quotes_paths :
    buildF2PCommand ["/tmp/my docs"] "/tmp/out.txt" ≠
        [FILES_TO_PROMPT_COMMAND, "/tmp/my docs", "--cxml", "-o",
          "/tmp/out.txt"] ∧
      buildF2PCommand ["/tmp/my docs"] "/tmp/out.txt" =
        [FILES_TO_PROMPT_COMMAND,
          String.mk (singleQuoteChar ::
            ("/tmp/my docs".data ++ [singleQuoteChar])),
          "--cxml", "-o", "/tmp/out.txt"] ∧
      buildF2PCommand ["/tmp/docs"] "/tmp/out.txt" =
        [FILES_TO_PROMPT_COMMAND, "/tmp/docs", "--cxml", "-o",
          "/tmp/out.txt"] := by
  refine ⟨by decide, by decide, by decide⟩

/-- Parse environment in which the single input PDF parses
successfully. -/
def okParseEnv : ParseEnv :=
  ⟨true, true, true, true, ["a"], fun _ => .completed 0 true, some []⟩

/-- App-variant state for the Both run: valid TXT directory /abs/txt. -/
def bothAppState : AppState := ⟨"/abs/txt", true, true, okParseEnv⟩

/-- Uploader-variant state for the same Both run. -/
def bothUpState : UpState := ⟨"/abs/txt", true, true, okParseEnv⟩

/-- C1: in Both mode with a valid plaintext directory D and a successful
parse, context-generator-app.py submits exactly [D] to the combination
step, while context-generator-app-uploader.py submits the nested parsed
subdirectory alone — a different list. -/
theorem both_mode_submitted_directories :
    (app_generate bothAppState .both).combineDirs = some ["/abs/txt"] ∧
      uploader_generate bothUpState .both =
        some ["/abs/txt/parsed_pdfs_streamlit"] ∧
      (some ["/abs/txt/parsed_pdfs_streamlit"] : Option (List String)) ≠
        some ["/abs/txt"] := by
  refine ⟨by decide, by decide, by decide⟩

/-- Whenever clear_directory reports success the directory exists and is
empty. -/
theorem clear_directory_ok_empty (prior : Option (List String))
    (osOk : Bool) :
    (clear_directory prior osOk).1 = true →
      (clear_directory prior osOk).2 = some [] := by
  cases prior <;> cases osOk <;> simp [clear_directory]

/-- C2: in TXT-only mode, whenever context-generator-app.py reaches the
combination call, the target is the TXT directory and the parsed-PDF
subdirectory has just been cleared to empty; the uploader variant never
reaches the combination call in TXT-only mode at all. -/
theorem txt_only_parsed_dir_cleared :
    (∀ s : AppState,
      (app_generate s .txtOnly).combineDirs.isSome = true →
        (app_generate s .txtOnly).combineDirs = some [s.txt_d] ∧
          (app_generate s .txtOnly).parsedContents = some []) ∧
      (∀ u : UpState, uploader_generate u .txtOnly = none) := by
  constructor
  · intro s h
    cases ht : s.txtDirIsDir with
    | false => simp [app_generate, ht] at h
    | true =>
      by_cases hc :
          (clear_directory s.parseEnv.priorOutput s.clearOsOk).1 = true
      · have he := clear_directory_ok_empty s.parseEnv.priorOutput
          s.clearOsOk hc
        simp [app_generate, ht, hc, he]
      · simp [app_generate, ht, hc] at h
  · intro u
    cases htd : u.txtDirIsDir <;>
      simp [uploader_generate, htd, isPathParent_pathJoin]

/-- Witness for C2 at a concrete state: after the TXT-only run reaches the
combination, the parsed subdirectory is empty. -/
theorem txt_only_parsed_dir_cleared_witness :
    (app_generate ⟨"/abs/txt", true, true, okParseEnv⟩
        .txtOnly).parsedContents = some [] :=
  (txt_only_parsed_dir_cleared.1 ⟨"/abs/txt", true, true, okParseEnv⟩
    (by decide)).2

/-! ## Theorems about the persona-suggestion step and delete_file. -/

/-- The exception classifier only produces remote-call error classes. -/
theorem isRemoteErrClass_classify (m : String) :
    isRemoteErrClass (classifyApiError m) = true := by
  simp only [classifyApiError]
  by_cases h1 : strContains (pyLower m) "api key not valid" = true
  · simp [h1, isRemoteErrClass]
  · by_cases h2 : strContains (pyLower m) "quota" = true
    · simp [h1, h2, isRemoteErrClass]
    · by_cases h3 : strContains (pyLower m) "model" = true ∧
        (strContains (pyLower m) "not found" = true ∨
          strContains (pyLower m) "permission" = true)
      · simp [h1, h2, h3, isRemoteErrClass]
      · simp [h1, h2, h3, isRemoteErrClass]

/-- C9: the persona-suggestion function returns exactly one of a text and
an error; a missing credential, an empty or whitespace-only context, and a
template without the placeholder each produce their classified error
without calling the remote endpoint (tested in the source order); and every
error produced once the remote endpoint was called is one of the remote
error classes, with a raised exception classified by its message through
the substring tests. -/
theorem persona_suggestion_contract :
    (∀ env c t, (generate_expert_system_prompt env c t).text.isSome =
        (generate_expert_system_prompt env c t).error.isNone) ∧
      (∀ env c t, env.apiKey = "" →
        generate_expert_system_prompt env c t =
          ⟨none, some .configMissingKey, false⟩) ∧
      (∀ env c t, env.apiKey ≠ "" → pyStrip c = "" →
        generate_expert_system_prompt env c t =
          ⟨none, some .inputEmpty, false⟩) ∧
      (∀ env c t, env.apiKey ≠ "" → pyStrip c ≠ "" →
        strContains t placeholderStr = false →
        generate_expert_system_prompt env c t =
          ⟨none, some .templateInvalid, false⟩) ∧
      (∀ env c t e0,
        (generate_expert_system_prompt env c t).remoteCalled = true →
        (generate_expert_system_prompt env c t).error = some e0 →
        isRemoteErrClass e0 = true) ∧
      (∀ env c t m,
        (generate_expert_system_prompt env c t).remoteCalled = true →
        env.apiOutcome = .raised m →
        (generate_expert_system_prompt env c t).error =
          some (classifyApiError m)) := by
  refine ⟨?_, ?_, ?_, ?_, ?_, ?_⟩
  · intro env c t
    obtain ⟨key, cf, ao⟩ := env
    by_cases h1 : key = ""
    · simp [generate_expert_system_prompt, h1]
    · by_cases h2 : pyStrip c = ""
      · simp [generate_expert_system_prompt, h1, h2]
      · cases h3 : strContains t placeholderStr with
        | false => simp [generate_expert_system_prompt, h1, h2, h3]
        | true =>
          cases cf with
          | some mm => simp [generate_expert_system_prompt, h1, h2, h3]
          | none =>
            cases hfmt : pyFormat t (pyStrip c) with
            | none => simp [generate_expert_system_prompt, h1, h2, h3, hfmt]
            | some fp =>
              cases ao with
              | hasText tt br =>
                by_cases hg : pyStrip tt = ""
                · cases br <;>
                    simp [generate_expert_system_prompt, h1, h2, h3, hfmt, hg]
                · simp [generate_expert_system_prompt, h1, h2, h3, hfmt, hg]
              | noText br =>
                cases br <;>
                  simp [generate_expert_system_prompt, h1, h2, h3, hfmt]
              | raised mm =>
                simp [generate_expert_system_prompt, h1, h2, h3, hfmt]
  · intro env c t h1
    simp [generate_expert_system_prompt, h1]
  · intro env c t h1 h2
    simp [generate_expert_system_prompt, h1, h2]
  · intro env c t h1 h2 h3
    simp [generate_expert_system_prompt, h1, h2, h3]
  · intro env c t e0 hrc herr
    obtain ⟨key, cf, ao⟩ := env
    by_cases h1 : key = ""
    · simp [generate_expert_system_prompt, h1] at hrc
    · by_cases h2 : pyStrip c = ""
      · simp [generate_expert_system_prompt, h1, h2] at hrc
      · cases h3 : strContains t placeholderStr with
        | false => simp [generate_expert_system_prompt, h1, h2, h3] at hrc
        | true =>
          cases cf with
          | some mm => simp [generate_expert_system_prompt, h1, h2, h3] at hrc
          | none =>
            cases hfmt : pyFormat t (pyStrip c) with
            | none =>
              simp [generate_expert_system_prompt, h1, h2, h3, hfmt] at hrc
            | some fp =>
              cases ao with
              | hasText tt br =>
                by_cases hg : pyStrip tt = ""
                · cases br with
                  | some r =>
                    simp [generate_expert_system_prompt, h1, h2, h3, hfmt,
                      hg] at herr
                    subst herr
                    simp [isRemoteErrClass]
                  | none =>
                    simp [generate_expert_system_prompt, h1, h2, h3, hfmt,
                      hg] at herr
                    subst herr
                    simp [isRemoteErrClass]
                · simp [generate_expert_system_prompt, h1, h2, h3, hfmt,
                    hg] at herr
              | noText br =>
                cases br with
                | some r =>
                  simp [generate_expert_system_prompt, h1, h2, h3,
                    hfmt] at herr
                  subst herr
                  simp [isRemoteErrClass]
                | none =>
                  simp [generate_expert_system_prompt, h1, h2, h3,
                    hfmt] at herr
                  subst herr
                  simp [isRemoteErrClass]
              | raised mm =>
                simp [generate_expert_system_prompt, h1, h2, h3,
                  hfmt] at herr
                subst herr
                exact isRemoteErrClass_classify mm
  · intro env c t m hrc hao
    obtain ⟨key, cf, ao⟩ := env
    simp only at hao
    subst hao
    by_cases h1 : key = ""
    · simp [generate_expert_system_prompt, h1] at hrc
    · by_cases h2 : pyStrip c = ""
      · simp [generate_expert_system_prompt, h1, h2] at hrc
      · cases h3 : strContains t placeholderStr with
        | false => simp [generate_expert_system_prompt, h1, h2, h3] at hrc
        | true =>
          cases cf with
          | some mm => simp [generate_expert_system_prompt, h1, h2, h3] at hrc
          | none =>
            cases hfmt : pyFormat t (pyStrip c) with
            | none =>
              simp [generate_expert_system_prompt, h1, h2, h3, hfmt] at hrc
            | some fp =>
              simp [generate_expert_system_prompt, h1, h2, h3, hfmt]

/-- Witness for C9 at concrete inputs: the three early-exit checks each
fire with the corresponding classified error and without a remote call. -/
theorem persona_suggestion_contract_witness :
    generate_expert_system_prompt ⟨"", none, .noText none⟩ "ctx"
        placeholderStr = ⟨none, some .configMissingKey, false⟩ ∧
      generate_expert_system_prompt ⟨"key", none, .noText none⟩ "  "
        placeholderStr = ⟨none, some .inputEmpty, false⟩ ∧
      generate_expert_system_prompt ⟨"key", none, .noText none⟩ "ctx"
        "no placeholder here" = ⟨none, some .templateInvalid, false⟩ := by
  refine ⟨persona_suggestion_contract.2.1 _ "ctx" placeholderStr rfl,
    persona_suggestion_contract.2.2.1 _ "  " placeholderStr (by decide)
      (by decide),
    persona_suggestion_contract.2.2.2.1 _ "ctx" "no placeholder here"
      (by decide) (by decide) (by decide)⟩

/-- C10: delete_file never touches the file system unless its argument is
an existing regular file (a directory, the empty string or a missing path
leave it unchanged); it never removes a directory; and at most the single
named file is unlinked. -/
theorem delete_file_only_unlinks_single_file (fs : FS) (p : String) :
    ((fs.isFile p = false ∨ p = "") → (delete_file fs p).1 = fs) ∧
      (delete_file fs p).1.dirs = fs.dirs ∧
      ((delete_file fs p).1.files = fs.files ∨
        (delete_file fs p).1.files = fs.files.erase p) := by
  by_cases hp : p = ""
  · simp [delete_file, hp]
  · by_cases hf : fs.isFile p
    · simp [delete_file, hp, hf]
    · simp [delete_file, hp, hf]

/-- Witness for C10 at a concrete state: deleting a directory path leaves
the file system unchanged. -/
theorem delete_file_only_unlinks_single_file_witness :
    (delete_file ⟨["/d/f.txt"], ["/d"]⟩ "/d").1 =
      (⟨["/d/f.txt"], ["/d"]⟩ : FS) :=
  (delete_file_only_unlinks_single_file ⟨["/d/f.txt"], ["/d"]⟩ "/d").1
    (Or.inl (by decide))

end ContextGen
